import Mathlib

/-!
Verification of the upload-session state machine of `django_tus/views.py`
(class `TusUpload`).  The Python methods `get`, `post`, `head`, `patch` are
shallowly embedded as pure Lean functions over an explicit server state.

Modelling conventions:
* Machine integers are `Nat` (no overflow is relevant: Python ints are
  unbounded and all counters here are non-negative).
* Django's cache (`cache.add` / `cache.get` / `cache.incr` /
  `cache.delete_many`) is modelled by the four per-resource entries as
  `Option`-valued fields; `None` results of `cache.get` are `none`.
* The temporary upload file `TUS_UPLOAD_DIR/<resource_id>` is modelled as
  `Option (List Nat)` (its byte content, `none` = file absent); the
  destination directory as an association list name ↦ content.
* Sessions are fully independent (all cache keys and the temporary file are
  namespaced by `resource_id`); the state tracks one resource's session
  together with the directory listings it interacts with.
* `base64.b64decode` and `bytes.decode("utf-8")` are Python stdlib, not
  repository code: they are passed in as an oracle (`PyEnv`), with `none`
  modelling the exception on malformed input.
* Python unhandled exceptions (TypeError, AttributeError, ValueError,
  binascii.Error) surface as HTTP 500; they are modelled as the
  `internalError` outcome.
* Response codes are modelled abstractly, following the specification's
  taxonomy: 409 = `conflict`, 410 = `gone` (for HEAD the code uses 404 for
  the same unknown-resource condition; the spec names that outcome Gone),
  500/unhandled exception = `internalError`, 201 = `created`,
  200 = `statusOk`/`patched`, 405 = `methodNotAllowed`.
-/

/-- A Python value appearing in the metadata dict: `str` or `bytes`.
(`views.py` mixes both: `post` decodes metadata values to `str`
(line 133), `get` leaves them as `bytes` (line 79).) -/
inductive PyVal where
  | str (s : String) : PyVal
  | bytes (b : List Nat) : PyVal
deriving DecidableEq, Repr

/-- A Python dict with `String` keys, as an insertion-ordered association
list (assignment overwrites the existing binding of the key). -/
abbrev PyDict := List (String × PyVal)

/-- `d[k] = v` on a Python dict. -/
def dictInsert (md : PyDict) (k : String) (v : PyVal) : PyDict :=
  match md with
  | [] => [(k, v)]
  | (k', v') :: rest =>
    if k' = k then (k, v) :: rest else (k', v') :: dictInsert rest k v

/-- `d.get(k)` on a Python dict. -/
def dictGet (md : PyDict) (k : String) : Option PyVal :=
  match md with
  | [] => none
  | (k', v') :: rest => if k' = k then some v' else dictGet rest k

/-- Python truthiness of a metadata value (`if filename:`): empty string
and empty bytes are falsy. -/
def pyTruthy : PyVal → Bool
  | PyVal.str s => s ≠ ""
  | PyVal.bytes b => b ≠ []

/-- `.upper()`: `str.upper` (modelled per character) and ASCII
`bytes.upper`.  (Cross-type equality between `str` and `bytes` is `False`
in Python 3, which constructor disjointness mirrors.) -/
def pyUpper : PyVal → PyVal
  | PyVal.str s => PyVal.str (String.mk (s.data.map Char.toUpper))
  | PyVal.bytes b =>
      PyVal.bytes (b.map (fun c => if 97 ≤ c ∧ c ≤ 122 then c - 32 else c))

/-- Oracle for the Python stdlib decoders used by `views.py`:
`base64.b64decode` and `bytes.decode("utf-8")`; `none` = decoding raised. -/
structure PyEnv where
  b64decode : String → Option (List Nat)
  utf8decode : List Nat → Option String

/-- The four cache entries of one resource:
`tus-uploads/<id>/filename`, `.../file_size`, `.../offset`,
`.../metadata` (views.py lines 151-154, 173-174, 188-191, 231-236). -/
structure CacheEntry where
  filename : Option String
  file_size : Option Nat
  offset : Option Nat
  metadata : Option PyDict
deriving DecidableEq, Repr

/-- All four cache keys absent (never created / expired / deleted). -/
def emptyCache : CacheEntry := ⟨none, none, none, none⟩

/-- `cache.add`: writes only if the key is absent (never overwrites). -/
def cacheAdd (o : Option α) (v : α) : Option α :=
  match o with
  | some x => some x
  | none => some v

/-- Keyword arguments of the `tus_upload_finished_signal.send` call
(views.py lines 238-245). -/
structure FinishedEvent where
  metadata : Option PyDict
  filename : String
  upload_file_path : String
  file_size : Nat
  upload_url : String
  destination_folder : String
deriving DecidableEq, Repr

/-- Server state for one resource id: its cache entries, its temporary
file's content (if the file exists), the other names present in
`TUS_UPLOAD_DIR`, the destination directory contents, and the finished
signals emitted so far. -/
structure TusState where
  resourceId : String
  cache : CacheEntry
  tempFile : Option (List Nat)
  uploadNames : List String
  destFiles : List (String × List Nat)
  events : List FinishedEvent
deriving DecidableEq, Repr

/-- The settings read by `TusUpload` that the modelled methods use.
`TUS_DESTINATION_DIR` already folds in the `MEDIA_ROOT` default of
`get_destination_dir` (views.py lines 56-57). -/
structure TusConfig where
  TUS_UPLOAD_DIR : String
  TUS_UPLOAD_URL : String
  TUS_DESTINATION_DIR : String
  TUS_FILE_OVERWRITE : Bool
deriving DecidableEq, Repr

/-- Helper for `pySplit`: split a character list at a separator. -/
def splitCharAux (sep : Char) : List Char → List Char → List (List Char)
  | [], acc => [acc.reverse]
  | c :: cs, acc =>
    if c = sep then acc.reverse :: splitCharAux sep cs []
    else splitCharAux sep cs (c :: acc)

/-- Python `str.split(sep)` for a one-character separator (`"".split(sep)`
is `[""]`, trailing separators yield empty fields, exactly as in Python). -/
def pySplit (sep : Char) (s : String) : List String :=
  (splitCharAux sep s.data []).map String.mk

/-- `os.path.join` for the two-argument relative uses in `views.py`. -/
def pathJoin (a b : String) : String :=
  if a.data.getLast? = some '/' then a ++ b else a ++ "/" ++ b

/-- Result of one request, in the specification's abstract taxonomy (see
the header comment for the concrete HTTP codes). -/
inductive TusResult where
  | created (resourceId : String) : TusResult
  | statusOk (offset : Nat) (length : Option Nat) : TusResult
  | patched (newOffset : Nat) : TusResult
  | conflict : TusResult
  | gone : TusResult
  | internalError : TusResult
  | fileExists (filename : PyVal) : TusResult
  | fileNotExists : TusResult
  | methodNotAllowed : TusResult
deriving DecidableEq, Repr

/-- A POST (CreateSession) request: presence of `Tus-Resumable`, the
optional `Message-Id` and `Upload-Metadata` headers (raw strings), and the
parsed `Upload-Length` header (absent ↦ the code's `"0"` default). -/
structure PostRequest where
  tusResumable : Bool
  messageId : Option String
  uploadMetadata : Option String
  uploadLength : Option Nat
deriving DecidableEq, Repr

/-- A PATCH (Append) request: `Upload-Offset` (absent ↦ default `0`),
`Content-Length` (absent ↦ default `102400`), and the body bytes. -/
structure PatchRequest where
  uploadOffset : Option Nat
  contentLength : Option Nat
  body : List Nat
deriving DecidableEq, Repr

/-- A GET (ExistenceProbe) request. -/
structure GetRequest where
  tusResumable : Bool
  uploadMetadata : Option String
deriving DecidableEq, Repr

/-- `(key, value) = kv.split(" ")`: succeeds only with exactly two parts
(otherwise Python raises ValueError on unpacking). -/
def splitKV (kv : String) : Option (String × String) :=
  match pySplit ' ' kv with
  | [k, v] => some (k, v)
  | _ => none

/-- The metadata loop of `post` (views.py lines 131-133):
`metadata[key] = base64.b64decode(value).decode("utf-8")` over the
comma-separated pairs; `none` = an exception was raised. -/
def parsePostPairs (env : PyEnv) : List String → PyDict → Option PyDict
  | [], md => some md
  | kv :: rest, md =>
    match splitKV kv with
    | none => none
    | some (k, v) =>
      match env.b64decode v with
      | none => none
      | some b =>
        match env.utf8decode b with
        | none => none
        | some s => parsePostPairs env rest (dictInsert md k (PyVal.str s))

/-- The metadata loop of `get` (views.py lines 77-79):
`metadata[key] = base64.b64decode(value)` — the values stay `bytes`. -/
def parseGetPairs (env : PyEnv) : List String → PyDict → Option PyDict
  | [], md => some md
  | kv :: rest, md =>
    match splitKV kv with
    | none => none
    | some (k, v) =>
      match env.b64decode v with
      | none => none
      | some b => parseGetPairs env rest (dictInsert md k (PyVal.bytes b))

/-- The metadata built by `post` before the overwrite check: the optional
`message_id` entry (views.py lines 124-127) then the `Upload-Metadata`
pairs (lines 130-133, guarded by `if upload_metadata:`, so an absent or
empty header skips the loop); `none` = an exception was raised. -/
def postMetadata (env : PyEnv) (req : PostRequest) : Option PyDict :=
  let withMsg : Option PyDict :=
    match req.messageId with
    | none => some []
    | some s =>
      if s = "" then some []
      else
        match env.b64decode s with
        | none => none
        | some b => some (dictInsert [] "message_id" (PyVal.bytes b))
  match withMsg with
  | none => none
  | some md =>
    match req.uploadMetadata with
    | none => some md
    | some s => if s = "" then some md else parsePostPairs env (pySplit ',' s) md

/-- `"{}".format(user_filename)`: Python str-formats `None` as `"None"`
(views.py line 151). -/
def pyFormatOptStr : Option String → String
  | none => "None"
  | some s => s

/-- Writing `bytes` at position `pos` of an open file with content
`content` (`seek(pos)` then `write`): overwrites in place, extends the
file if the write passes its end, and zero-fills any gap between the old
end and `pos`.  Writing zero bytes changes nothing (a bare seek does not
extend a file). -/
def writeAt (content : List Nat) (pos : Nat) (bytes : List Nat) : List Nat :=
  if bytes = [] then content
  else
    let padded := content ++ List.replicate (pos - content.length) 0
    padded.take pos ++ bytes ++ padded.drop (pos + bytes.length)

/-- `TusUpload.post` (views.py lines 101-168).

Faithfulness notes: lines 110-114 set status 500 for a missing
`Tus-Resumable` header but do not return, and every later exit overwrites
the status, so the check has no observable effect; lines 116-119 (the
OPTIONS branch) are unreachable because Django's dispatch routes OPTIONS
to `options`.  `ioError` selects the `except IOError` branch of the file
preallocation (lines 156-164): the cache entries are already written when
it is taken, the temporary file is not created. -/
def tus_post (env : PyEnv) (cfg : TusConfig) (st : TusState) (req : PostRequest)
    (freshId : String) (ioError : Bool) : TusState × TusResult :=
  match postMetadata env req with
  | none => (st, TusResult.internalError)
  | some metadata =>
    let user_filename : Option String :=
      match dictGet metadata "filename" with
      | some (PyVal.str s) => some s
      | _ => none
    -- lines 135-139: `if user_filename and os.path.lexists(
    --   os.path.join(self.TUS_UPLOAD_DIR, user_filename))
    --   and self.TUS_FILE_OVERWRITE is False: 409`
    if user_filename.getD "" ≠ "" ∧ user_filename.getD "" ∈ st.uploadNames
        ∧ cfg.TUS_FILE_OVERWRITE = false then
      (st, TusResult.conflict)
    else
      let file_size := req.uploadLength.getD 0
      -- lines 151-154: cache.add of the four keys
      let cache' : CacheEntry :=
        ⟨cacheAdd st.cache.filename (pyFormatOptStr user_filename),
         cacheAdd st.cache.file_size file_size,
         cacheAdd st.cache.offset 0,
         cacheAdd st.cache.metadata metadata⟩
      let st1 := { st with resourceId := freshId, cache := cache' }
      if ioError then
        (st1, TusResult.internalError)
      else
        -- lines 156-160: open(path, "wb"); seek(file_size); write(b"\0")
        -- The written file is file_size zero bytes of seek gap plus the
        -- one written zero byte: file_size + 1 bytes in total.
        ({ st1 with tempFile := some (List.replicate (file_size + 1) 0) },
         TusResult.created freshId)

/-- `TusUpload.head` (views.py lines 170-183).  An absent offset key
yields HTTP 404 (line 176) — the specification's Gone outcome for an
unknown resource. -/
def tus_head (st : TusState) : TusState × TusResult :=
  match st.cache.offset with
  | none => (st, TusResult.gone)
  | some o => (st, TusResult.statusOk o st.cache.file_size)

/-- `TusUpload.patch` (views.py lines 185-249).

Line 189 runs `int(cache.get(".../file_size"))` before any existence
check: when the key is absent `int(None)` raises TypeError, i.e. the
request ends as HTTP 500 (`internalError`) and the Gone check of
line 197 is never reached.  Line 201 is the offset synchronization gate
(`file_offset != offset`, where an absent offset key also compares
unequal).  Lines 214-221 write the body at `file_offset` (the `r+b` open
succeeds because the existence check passed).  Line 223 increments the
stored offset by `chunk_size` — the `CONTENT_LENGTH` header value, not
the body length.  Lines 226-247 finalize when the new offset equals
`file_size`: rename to a fresh-hex-token-prefixed name in the destination
directory, delete the four cache keys, and send the finished signal. -/
def tus_patch (cfg : TusConfig) (st : TusState) (req : PatchRequest)
    (freshTok : String) : TusState × TusResult :=
  match st.cache.file_size with
  | none => (st, TusResult.internalError)
  | some file_size =>
    let file_offset := req.uploadOffset.getD 0
    let chunk_size := req.contentLength.getD 102400
    if st.cache.filename = none ∨ st.tempFile = none then
      (st, TusResult.gone)
    else if some file_offset ≠ st.cache.offset then
      (st, TusResult.conflict)
    else
      let content := st.tempFile.getD []
      let content' := writeAt content file_offset req.body
      let new_offset := file_offset + chunk_size
      if file_size = new_offset then
        let finalName := freshTok ++ "_" ++ st.cache.filename.getD ""
        ({ st with
            tempFile := none,
            destFiles := (finalName, content') :: st.destFiles,
            cache := emptyCache,
            events := st.events ++
              [⟨st.cache.metadata, finalName,
                pathJoin cfg.TUS_UPLOAD_DIR st.resourceId, file_size,
                cfg.TUS_UPLOAD_URL, cfg.TUS_DESTINATION_DIR⟩] },
         TusResult.patched new_offset)
      else
        ({ st with
            tempFile := some content',
            cache := { st.cache with offset := some new_offset } },
         TusResult.patched new_offset)

/-- `TusUpload.get` (views.py lines 63-87).

A missing `Tus-Resumable` header yields 405 (lines 74-75).  Line 77 calls
`.split(",")` on the raw `Upload-Metadata` header: when the header is
absent this is `None.split` — AttributeError, HTTP 500.  The decoded
filename is `bytes` (line 79) while `os.listdir` yields `str`, so the
case-insensitive membership test of line 82 compares `bytes` to `str`.
(`os.path.dirname(self.TUS_UPLOAD_DIR)` with the trailing-slash default
names the upload directory itself; the listing is `st.uploadNames`.) -/
def tus_get (env : PyEnv) (st : TusState) (req : GetRequest) :
    TusState × TusResult :=
  if req.tusResumable = false then
    (st, TusResult.methodNotAllowed)
  else
    match req.uploadMetadata with
    | none => (st, TusResult.internalError)
    | some s =>
      match parseGetPairs env (pySplit ',' s) [] with
      | none => (st, TusResult.internalError)
      | some metadata =>
        match dictGet metadata "filename" with
        | none => (st, TusResult.fileNotExists)
        | some fn =>
          if pyTruthy fn = true
              ∧ pyUpper fn ∈ st.uploadNames.map (fun f => pyUpper (PyVal.str f))
          then (st, TusResult.fileExists fn)
          else (st, TusResult.fileNotExists)

/-- One inbound operation against the tracked resource after its creation:
a HEAD, a PATCH (with the fresh hex token `uuid4().hex` the completion
branch would draw), or the TTL expiry of the cache entries. -/
inductive TusOp where
  | headOp : TusOp
  | patchOp (req : PatchRequest) (freshTok : String) : TusOp
  | expireOp : TusOp
deriving DecidableEq, Repr

/-- Effect of one operation: the new state, and the response when the
operation is a request (`none` for the store-internal expiry). -/
def stepOp (cfg : TusConfig) (st : TusState) : TusOp → TusState × Option TusResult
  | TusOp.headOp => ((tus_head st).1, some (tus_head st).2)
  | TusOp.patchOp req tok =>
      ((tus_patch cfg st req tok).1, some (tus_patch cfg st req tok).2)
  | TusOp.expireOp => ({ st with cache := emptyCache }, none)

/-- Run a sequence of operations. -/
def runOps (cfg : TusConfig) : TusState → List TusOp → TusState
  | st, [] => st
  | st, op :: ops => runOps cfg (stepOp cfg st op).1 ops

/-- The offset returned by a step, when the step is a successful Append. -/
def stepOffset : Option TusResult → Option Nat
  | some (TusResult.patched n) => some n
  | _ => none

/-- The `Upload-Offset` values returned by the successful Appends of a
sequence of operations, in order. -/
def patchReturns (cfg : TusConfig) : TusState → List TusOp → List Nat
  | _, [] => []
  | st, op :: ops =>
    (stepOffset (stepOp cfg st op).2).toList
      ++ patchReturns cfg (stepOp cfg st op).1 ops

/-- The body length of a step, when the step is a successful Append. -/
def succLen (op : TusOp) (r : Option TusResult) : Option Nat :=
  match op, r with
  | TusOp.patchOp req _, some (TusResult.patched _) => some req.body.length
  | _, _ => none

/-- The byte lengths of the chunks written by the successful Appends of a
sequence of operations, in order (the claim-side accounting of
"successfully written chunks"). -/
def succChunkLens (cfg : TusConfig) : TusState → List TusOp → List Nat
  | _, [] => []
  | st, op :: ops =>
    (succLen op (stepOp cfg st op).2).toList
      ++ succChunkLens cfg (stepOp cfg st op).1 ops

/-- Running sums: `accSums b [x, y, ...] = [b+x, b+x+y, ...]`. -/
def accSums (base : Nat) : List Nat → List Nat
  | [] => []
  | x :: xs => (base + x) :: accSums (base + x) xs

/-- A pre-creation state: no cache entries, no temporary file, given
directory contents. -/
def initState (uploadNames : List String) (destFiles : List (String × List Nat)) :
    TusState :=
  ⟨"", emptyCache, none, uploadNames, destFiles, []⟩

/-- All values of a dict are `bytes` (true of everything `get` decodes). -/
def bytesOnly (md : PyDict) : Prop := ∀ p ∈ md, ∃ b, p.2 = PyVal.bytes b

/-- Invariant behind exactly-once notification: either the session is
alive and nothing has been notified yet, or the cache entries are gone
and at most one notification was ever emitted. -/
def OnceInv (st : TusState) : Prop :=
  ((∃ fn N k md c,
      st.cache = ⟨some fn, some N, some k, some md⟩ ∧ st.tempFile = some c)
    ∧ st.events = [])
  ∨ (st.cache = emptyCache ∧ st.events.length ≤ 1)

/-- Invariant behind the offset bound: either the session is alive with its
declared size `N` and an offset at most `N`, or the cache entries are gone. -/
def BoundInv (N : Nat) (st : TusState) : Prop :=
  (∃ fn k md c,
      st.cache = ⟨some fn, some N, some k, some md⟩ ∧ st.tempFile = some c ∧ k ≤ N)
  ∨ st.cache = emptyCache

/-- Sample stdlib oracle for concrete inputs:
`"cmVwb3J0LnBkZg=="` is the base64 of `"report.pdf"`. -/
def sampleEnv : PyEnv :=
  ⟨fun s => if s = "cmVwb3J0LnBkZg==" then
      some [114, 101, 112, 111, 114, 116, 46, 112, 100, 102] else none,
   fun b => if b = [114, 101, 112, 111, 114, 116, 46, 112, 100, 102] then
      some "report.pdf" else none⟩

/-- Stdlib oracle for concrete inputs that decode nothing. -/
def envNone : PyEnv := ⟨fun _ => none, fun _ => none⟩

/-- A sample configuration with overwrite allowed (the default). -/
def cfgSample : TusConfig := ⟨"tmp/uploads", "/media", "media", true⟩

/-- A sample configuration with `TUS_FILE_OVERWRITE = False`. -/
def cfgNoOverwrite : TusConfig := ⟨"tmp/uploads", "/media", "media", false⟩

/-- A session freshly created by `post` with `Upload-Length 10` and no
metadata: resource id `"res1"`, stored filename `"None"`, offset `0`,
preallocated 11-byte temporary file. -/
def st1Sample : TusState :=
  (tus_post envNone cfgSample (initState [] []) ⟨true, none, none, some 10⟩
    "res1" false).1

/-! ### Helper lemmas about single steps -/

lemma patch_dead (cfg : TusConfig) (st : TusState) (req : PatchRequest) (tok : String)
    (h : st.cache.file_size = none) :
    tus_patch cfg st req tok = (st, TusResult.internalError) := by
  unfold tus_patch
  rw [h]

lemma head_stateEq (st : TusState) : (tus_head st).1 = st := by
  unfold tus_head
  cases st.cache.offset <;> rfl

lemma set_cache_self (st : TusState) (h : st.cache = emptyCache) :
    { st with cache := emptyCache } = st := by
  cases st
  simp_all

lemma stepOp_dead_state (cfg : TusConfig) (st : TusState) (op : TusOp)
    (h : st.cache = emptyCache) : (stepOp cfg st op).1 = st := by
  cases op with
  | headOp => exact head_stateEq st
  | patchOp req tok =>
    have : st.cache.file_size = none := by rw [h]; rfl
    simp [stepOp, patch_dead cfg st req tok this]
  | expireOp => simpa [stepOp] using set_cache_self st h

lemma stepOp_dead_patch (cfg : TusConfig) (st : TusState) (req : PatchRequest)
    (tok : String) (h : st.cache = emptyCache) :
    stepOp cfg st (TusOp.patchOp req tok) = (st, some TusResult.internalError) := by
  have hfs : st.cache.file_size = none := by rw [h]; rfl
  simp [stepOp, patch_dead cfg st req tok hfs]

lemma head_dead (st : TusState) (h : st.cache.offset = none) :
    tus_head st = (st, TusResult.gone) := by
  unfold tus_head
  rw [h]

lemma patch_conflict (cfg : TusConfig) (st : TusState) (req : PatchRequest)
    (tok : String) (fn : String) (N k : Nat) (md : PyDict) (c : List Nat)
    (hc : st.cache = ⟨some fn, some N, some k, some md⟩)
    (ht : st.tempFile = some c)
    (hne : req.uploadOffset.getD 0 ≠ k) :
    tus_patch cfg st req tok = (st, TusResult.conflict) := by
  unfold tus_patch
  rw [hc, ht]
  simp [hne]

lemma patch_complete (cfg : TusConfig) (st : TusState) (req : PatchRequest)
    (tok : String) (fn : String) (N k : Nat) (md : PyDict) (c : List Nat)
    (hc : st.cache = ⟨some fn, some N, some k, some md⟩)
    (ht : st.tempFile = some c)
    (hfo : req.uploadOffset.getD 0 = k)
    (hN : N = k + req.contentLength.getD 102400) :
    tus_patch cfg st req tok =
      ({ st with
          tempFile := none,
          destFiles := (tok ++ "_" ++ fn, writeAt c k req.body) :: st.destFiles,
          cache := emptyCache,
          events := st.events ++
            [⟨some md, tok ++ "_" ++ fn,
              pathJoin cfg.TUS_UPLOAD_DIR st.resourceId, N,
              cfg.TUS_UPLOAD_URL, cfg.TUS_DESTINATION_DIR⟩] },
       TusResult.patched (k + req.contentLength.getD 102400)) := by
  unfold tus_patch
  rw [hc, ht]
  simp [hfo, hN]

lemma patch_more (cfg : TusConfig) (st : TusState) (req : PatchRequest)
    (tok : String) (fn : String) (N k : Nat) (md : PyDict) (c : List Nat)
    (hc : st.cache = ⟨some fn, some N, some k, some md⟩)
    (ht : st.tempFile = some c)
    (hfo : req.uploadOffset.getD 0 = k)
    (hN : N ≠ k + req.contentLength.getD 102400) :
    tus_patch cfg st req tok =
      ({ st with
          tempFile := some (writeAt c k req.body),
          cache := ⟨some fn, some N, some (k + req.contentLength.getD 102400), some md⟩ },
       TusResult.patched (k + req.contentLength.getD 102400)) := by
  unfold tus_patch
  rw [hc, ht]
  simp [hfo, hN]

/-! ### Trace lemmas -/

lemma trace_dead (cfg : TusConfig) : ∀ (ops : List TusOp) (st : TusState),
    st.cache = emptyCache →
    patchReturns cfg st ops = [] ∧ succChunkLens cfg st ops = []
      ∧ runOps cfg st ops = st := by
  intro ops
  induction ops with
  | nil => intro st _; exact ⟨rfl, rfl, rfl⟩
  | cons op rest ih =>
    intro st h
    have hst : (stepOp cfg st op).1 = st := stepOp_dead_state cfg st op h
    have hres : stepOffset (stepOp cfg st op).2 = none
        ∧ succLen op (stepOp cfg st op).2 = none := by
      cases op with
      | headOp =>
        have : st.cache.offset = none := by rw [h]; rfl
        simp [stepOp, head_dead st this, stepOffset, succLen]
      | patchOp req tok =>
        simp [stepOp_dead_patch cfg st req tok h, stepOffset, succLen]
      | expireOp => simp [stepOp, stepOffset, succLen]
    refine ⟨?_, ?_, ?_⟩
    · simp [patchReturns, hres.1, hst, (ih st h).1]
    · simp [succChunkLens, hres.2, hst, (ih st h).2]
    · simp [runOps, hst, (ih st h).2.2]

lemma trace_sum (cfg : TusConfig) : ∀ (ops : List TusOp) (st : TusState)
    (fn : String) (N k : Nat) (md : PyDict) (c : List Nat),
    (∀ req tok, TusOp.patchOp req tok ∈ ops → req.contentLength = some req.body.length) →
    st.cache = ⟨some fn, some N, some k, some md⟩ →
    st.tempFile = some c →
    patchReturns cfg st ops = accSums k (succChunkLens cfg st ops) := by
  intro ops
  induction ops with
  | nil => intro st fn N k md c _ _ _; rfl
  | cons op rest ih =>
    intro st fn N k md c honest hc ht
    have honest' : ∀ req tok, TusOp.patchOp req tok ∈ rest →
        req.contentLength = some req.body.length := by
      intro req tok hm; exact honest req tok (List.mem_cons_of_mem op hm)
    cases op with
    | headOp =>
      have h1 : (stepOp cfg st TusOp.headOp).1 = st := head_stateEq st
      have h2 : stepOffset (stepOp cfg st TusOp.headOp).2 = none := by
        unfold stepOp tus_head
        rw [hc]
        rfl
      have h3 : succLen TusOp.headOp (stepOp cfg st TusOp.headOp).2 = none := rfl
      simp [patchReturns, succChunkLens, h1, h2, h3, ih st fn N k md c honest' hc ht]
    | expireOp =>
      have hdead : ({ st with cache := emptyCache } : TusState).cache = emptyCache := rfl
      have := trace_dead cfg rest { st with cache := emptyCache } hdead
      simp [patchReturns, succChunkLens, stepOp, stepOffset, succLen, this.1, this.2.1,
        accSums]
    | patchOp req tok =>
      have hcl : req.contentLength = some req.body.length :=
        honest req tok (List.mem_cons_self _ _)
      by_cases hfo : req.uploadOffset.getD 0 = k
      · by_cases hN : N = k + req.contentLength.getD 102400
        · -- completing append: the successor state is dead
          have hp := patch_complete cfg st req tok fn N k md c hc ht hfo hN
          have hdd := trace_dead cfg rest (tus_patch cfg st req tok).1
            (by rw [hp])
          have hdd1 := hdd.1
          have hdd2 := hdd.2.1
          rw [hp] at hdd1 hdd2
          simp only [] at hdd1 hdd2
          simp [patchReturns, succChunkLens, stepOp, hp, stepOffset, succLen,
            hdd1, hdd2, accSums, hcl]
        · -- non-completing successful append
          have hp := patch_more cfg st req tok fn N k md c hc ht hfo hN
          have hc' : (tus_patch cfg st req tok).1.cache =
              ⟨some fn, some N, some (k + req.contentLength.getD 102400), some md⟩ := by
            rw [hp]
          have ht' : (tus_patch cfg st req tok).1.tempFile = some (writeAt c k req.body) := by
            rw [hp]
          have ihs := ih (tus_patch cfg st req tok).1 fn N
            (k + req.contentLength.getD 102400) md (writeAt c k req.body) honest' hc' ht'
          simp only [patchReturns, succChunkLens, stepOp, hp, stepOffset, succLen,
            Option.toList_some, accSums] at ihs ⊢
          rw [hcl] at ihs ⊢
          simp only [Option.getD_some] at ihs ⊢
          simpa [accSums] using ihs
      · -- conflict: state unchanged
        have hp := patch_conflict cfg st req tok fn N k md c hc ht hfo
        simp [patchReturns, succChunkLens, stepOp, hp, stepOffset, succLen,
          ih st fn N k md c honest' hc ht]

lemma accSums_chain (xs : List Nat) : ∀ b : Nat,
    List.Chain' (fun a b => a ≤ b) (accSums b xs) := by
  induction xs with
  | nil => intro b; simp [accSums]
  | cons x rest ih =>
    intro b
    rw [accSums, List.chain'_cons']
    refine ⟨?_, ih (b + x)⟩
    intro y hy
    cases rest with
    | nil => simp [accSums] at hy
    | cons z zs =>
      simp [accSums] at hy
      omega

lemma stepOp_head_state (cfg : TusConfig) (st : TusState) :
    (stepOp cfg st TusOp.headOp).1 = st := head_stateEq st

lemma stepOp_once (cfg : TusConfig) (st : TusState) (op : TusOp)
    (h : OnceInv st) : OnceInv (stepOp cfg st op).1 := by
  rcases h with ⟨⟨fn, N, k, md, c, hc, ht⟩, hev⟩ | ⟨hc, hev⟩
  · cases op with
    | headOp =>
      rw [stepOp_head_state cfg st]
      exact Or.inl ⟨⟨fn, N, k, md, c, hc, ht⟩, hev⟩
    | expireOp => exact Or.inr ⟨rfl, by simp [stepOp, hev]⟩
    | patchOp req tok =>
      by_cases hfo : req.uploadOffset.getD 0 = k
      · by_cases hN : N = k + req.contentLength.getD 102400
        · have hp := patch_complete cfg st req tok fn N k md c hc ht hfo hN
          refine Or.inr ?_
          constructor
          · simp [stepOp, hp]
          · simp [stepOp, hp, hev]
        · have hp := patch_more cfg st req tok fn N k md c hc ht hfo hN
          refine Or.inl ⟨⟨fn, N, k + req.contentLength.getD 102400, md,
            writeAt c k req.body, ?_, ?_⟩, ?_⟩ <;> simp [stepOp, hp, hev]
      · have hp := patch_conflict cfg st req tok fn N k md c hc ht hfo
        rw [show (stepOp cfg st (TusOp.patchOp req tok)).1 = st by simp [stepOp, hp]]
        exact Or.inl ⟨⟨fn, N, k, md, c, hc, ht⟩, hev⟩
  · rw [stepOp_dead_state cfg st op hc]
    exact Or.inr ⟨hc, hev⟩

lemma runOps_once (cfg : TusConfig) : ∀ (ops : List TusOp) (st : TusState),
    OnceInv st → OnceInv (runOps cfg st ops) := by
  intro ops
  induction ops with
  | nil => intro st h; exact h
  | cons op rest ih =>
    intro st h
    exact ih (stepOp cfg st op).1 (stepOp_once cfg st op h)

lemma stepOp_bound (cfg : TusConfig) (N : Nat) (st : TusState) (op : TusOp)
    (hop : ∀ req tok, op = TusOp.patchOp req tok →
      req.uploadOffset.getD 0 + req.contentLength.getD 102400 ≤ N)
    (h : BoundInv N st) : BoundInv N (stepOp cfg st op).1 := by
  rcases h with ⟨fn, k, md, c, hc, ht, hk⟩ | hc
  · cases op with
    | headOp =>
      rw [stepOp_head_state cfg st]
      exact Or.inl ⟨fn, k, md, c, hc, ht, hk⟩
    | expireOp => exact Or.inr rfl
    | patchOp req tok =>
      by_cases hfo : req.uploadOffset.getD 0 = k
      · by_cases hN : N = k + req.contentLength.getD 102400
        · have hp := patch_complete cfg st req tok fn N k md c hc ht hfo hN
          refine Or.inr ?_
          simp [stepOp, hp]
        · have hp := patch_more cfg st req tok fn N k md c hc ht hfo hN
          refine Or.inl ⟨fn, k + req.contentLength.getD 102400, md,
            writeAt c k req.body, ?_, ?_, ?_⟩
          · simp [stepOp, hp]
          · simp [stepOp, hp]
          · have := hop req tok rfl
            omega
      · have hp := patch_conflict cfg st req tok fn N k md c hc ht hfo
        rw [show (stepOp cfg st (TusOp.patchOp req tok)).1 = st by simp [stepOp, hp]]
        exact Or.inl ⟨fn, k, md, c, hc, ht, hk⟩
  · rw [stepOp_dead_state cfg st op hc]
    exact Or.inr hc

lemma runOps_bound (cfg : TusConfig) (N : Nat) : ∀ (ops : List TusOp) (st : TusState),
    (∀ req tok, TusOp.patchOp req tok ∈ ops →
      req.uploadOffset.getD 0 + req.contentLength.getD 102400 ≤ N) →
    BoundInv N st → BoundInv N (runOps cfg st ops) := by
  intro ops
  induction ops with
  | nil => intro st _ h; exact h
  | cons op rest ih =>
    intro st hb h
    refine ih (stepOp cfg st op).1 ?_ (stepOp_bound cfg N st op ?_ h)
    · intro req tok hm; exact hb req tok (List.mem_cons_of_mem op hm)
    · intro req tok hop; exact hb req tok (hop ▸ List.mem_cons_self op rest)

/-- Shape of the state produced by a successful `post`: the four cache
entries freshly written, offset `0`, the `Upload-Length` value as
`file_size`, the preallocated temporary file, everything else as before. -/
lemma post_created_shape (env : PyEnv) (cfg : TusConfig) (st0 : TusState)
    (req : PostRequest) (fid : String) (st : TusState)
    (h0 : st0.cache = emptyCache)
    (h : tus_post env cfg st0 req fid false = (st, TusResult.created fid)) :
    ∃ fn md, st.cache = ⟨some fn, some (req.uploadLength.getD 0), some 0, some md⟩
      ∧ st.tempFile = some (List.replicate (req.uploadLength.getD 0 + 1) 0)
      ∧ st.events = st0.events ∧ st.resourceId = fid
      ∧ st.uploadNames = st0.uploadNames ∧ st.destFiles = st0.destFiles := by
  unfold tus_post at h
  rcases hm : postMetadata env req with _ | md
  · rw [hm] at h
    simp at h
  · rw [hm] at h
    simp only [] at h
    split at h
    · simp at h
    · injection h with h1 h2
      subst h1
      refine ⟨pyFormatOptStr (match dictGet md "filename" with
          | some (PyVal.str s) => some s
          | _ => none), md, ?_, rfl, rfl, rfl, rfl, rfl⟩
      rw [h0]
      rfl

lemma dictGet_mem : ∀ (md : PyDict) (k : String) (v : PyVal),
    dictGet md k = some v → (k, v) ∈ md := by
  intro md
  induction md with
  | nil => intro k v h; simp [dictGet] at h
  | cons p rest ih =>
    intro k v h
    rw [dictGet] at h
    by_cases hk : p.1 = k
    · rw [if_pos hk] at h
      cases p with
      | mk k1 v1 =>
        injection h with hv
        subst hv
        subst hk
        exact List.mem_cons_self _ _
    · rw [if_neg hk] at h
      exact List.mem_cons_of_mem p (ih k v h)

lemma dictInsert_bytes (md : PyDict) (k : String) (b : List Nat)
    (h : bytesOnly md) : bytesOnly (dictInsert md k (PyVal.bytes b)) := by
  induction md with
  | nil =>
    intro p hp
    simp [dictInsert] at hp
    exact ⟨b, by rw [hp]⟩
  | cons q rest ih =>
    intro p hp
    rw [dictInsert] at hp
    by_cases hk : q.1 = k
    · rw [if_pos hk] at hp
      rcases List.mem_cons.1 hp with h1 | h1
      · exact ⟨b, by rw [h1]⟩
      · exact h p (List.mem_cons_of_mem q h1)
    · rw [if_neg hk] at hp
      rcases List.mem_cons.1 hp with h1 | h1
      · exact h p (h1 ▸ List.mem_cons_self q rest)
      · exact ih (fun r hr => h r (List.mem_cons_of_mem q hr)) p h1

lemma parseGetPairs_bytes (env : PyEnv) : ∀ (l : List String) (md md' : PyDict),
    bytesOnly md → parseGetPairs env l md = some md' → bytesOnly md' := by
  intro l
  induction l with
  | nil =>
    intro md md' h hp
    rw [parseGetPairs] at hp
    cases hp
    exact h
  | cons kv rest ih =>
    intro md md' h hp
    rw [parseGetPairs] at hp
    rcases hs : splitKV kv with _ | ⟨k, v⟩
    · simp only [hs] at hp
      exact Option.noConfusion hp
    · simp only [hs] at hp
      rcases hb : env.b64decode v with _ | b
      · simp only [hb] at hp
        exact Option.noConfusion hp
      · simp only [hb] at hp
        exact ih (dictInsert md k (PyVal.bytes b)) md' (dictInsert_bytes md k b h) hp

/-! ### Claim theorems -/

/-- Claim C1 (confirmed): for every Append on an existing session whose
backing file exists, a claimed offset different from the stored offset
makes the operation return Conflict with the state — stored offset,
temporary file content, emitted events — entirely unchanged. -/
theorem c1_offset_mismatch_conflict (cfg : TusConfig) (st : TusState)
    (req : PatchRequest) (tok fn : String) (N k : Nat) (md : PyDict) (c : List Nat)
    (hc : st.cache = ⟨some fn, some N, some k, some md⟩)
    (ht : st.tempFile = some c)
    (hne : req.uploadOffset.getD 0 ≠ k) :
    tus_patch cfg st req tok = (st, TusResult.conflict) :=
  patch_conflict cfg st req tok fn N k md c hc ht hne

theorem c1_offset_mismatch_conflict_witness :
    st1Sample.cache = ⟨some "None", some 10, some 0, some []⟩
    ∧ st1Sample.tempFile = some [0, 0, 0, 0, 0, 0, 0, 0, 0, 0, 0]
    ∧ (some 3 : Option Nat).getD 0 ≠ 0
    ∧ tus_patch cfgSample st1Sample ⟨some 3, some 2, [5, 5]⟩ "tok"
        = (st1Sample, TusResult.conflict) :=
  ⟨rfl, rfl, by decide,
   c1_offset_mismatch_conflict cfgSample st1Sample ⟨some 3, some 2, [5, 5]⟩ "tok"
     "None" 10 0 [] [0, 0, 0, 0, 0, 0, 0, 0, 0, 0, 0] rfl rfl (by decide)⟩

/-- Claim C2 (counterexample): an Append whose request carries no
Content-Length header is "successful" yet returns previous offset plus
the 102400 default, not previous offset plus the 5-byte chunk length —
the code increments by the header value, not by `len(body)`. -/
theorem c2_counterexample :
    (tus_patch cfgSample st1Sample ⟨some 0, none, [1, 2, 3, 4, 5]⟩ "tok").2
      = TusResult.patched 102400
    ∧ (102400 : Nat) ≠ 0 + 5 := ⟨rfl, by decide⟩

/-- Claim C2 (amended): for every session created by `post` and every
sequence of operations whose Append requests declare a Content-Length
equal to their body length, each successful Append returns the previous
stored offset plus the chunk's byte length — the returned offsets are
exactly the running sums of the successfully written chunk lengths
starting from 0 — and the returned offsets are non-decreasing. -/
theorem c2_offset_accounting (env : PyEnv) (cfg : TusConfig)
    (un : List String) (df : List (String × List Nat)) (req0 : PostRequest)
    (fid : String) (st1 : TusState) (ops : List TusOp)
    (hpost : tus_post env cfg (initState un df) req0 fid false
      = (st1, TusResult.created fid))
    (honest : ∀ req tok, TusOp.patchOp req tok ∈ ops →
      req.contentLength = some req.body.length) :
    patchReturns cfg st1 ops = accSums 0 (succChunkLens cfg st1 ops)
    ∧ List.Chain' (fun a b => a ≤ b) (patchReturns cfg st1 ops) := by
  obtain ⟨fn, md, hc, ht, -, -, -, -⟩ :=
    post_created_shape env cfg (initState un df) req0 fid st1 rfl hpost
  have h1 := trace_sum cfg ops st1 fn (req0.uploadLength.getD 0) 0 md _ honest hc ht
  exact ⟨h1, h1 ▸ accSums_chain _ 0⟩

theorem c2_offset_accounting_witness :
    tus_post envNone cfgSample (initState [] []) ⟨true, none, none, some 10⟩
        "res1" false = (st1Sample, TusResult.created "res1")
    ∧ (patchReturns cfgSample st1Sample
          [TusOp.patchOp ⟨some 0, some 4, [7, 7, 7, 7]⟩ "t"]
        = accSums 0 (succChunkLens cfgSample st1Sample
            [TusOp.patchOp ⟨some 0, some 4, [7, 7, 7, 7]⟩ "t"])
      ∧ List.Chain' (fun a b => a ≤ b) (patchReturns cfgSample st1Sample
          [TusOp.patchOp ⟨some 0, some 4, [7, 7, 7, 7]⟩ "t"])) :=
  ⟨rfl,
   c2_offset_accounting envNone cfgSample [] [] ⟨true, none, none, some 10⟩
     "res1" st1Sample [TusOp.patchOp ⟨some 0, some 4, [7, 7, 7, 7]⟩ "t"] rfl
     (by
        intro req tok h
        rw [List.mem_singleton] at h
        injection h with h1 h2
        subst h1
        rfl)⟩

/-- Claim C4 (code_bug evidence): on a resource whose cache entries are
absent (never created, expired, or deleted), HEAD returns the
unknown-resource outcome (the spec's Gone; HTTP 404) without any state
mutation, but PATCH ends in `internalError` — the `int(cache.get(...))`
TypeError of views.py line 189 — instead of Gone, the code's own 410
branch (line 197) being unreachable for this case; the state is
unchanged. -/
theorem c4_unknown_resource :
    tus_head (initState [] []) = (initState [] [], TusResult.gone)
    ∧ tus_patch cfgSample (initState [] []) ⟨some 0, some 3, [1, 2, 3]⟩ "t"
        = (initState [] [], TusResult.internalError)
    ∧ TusResult.internalError ≠ TusResult.gone
    ∧ TusResult.internalError ≠ TusResult.conflict := ⟨rfl, rfl, by decide, by decide⟩

/-- Claim C5 (counterexample): Create with declared totalSize 0 leaves a
preallocated temporary file of one byte, not zero bytes. -/
theorem c5_counterexample :
    (tus_post envNone cfgSample (initState [] []) ⟨true, none, none, some 0⟩
        "res1" false).1.tempFile = some [0]
    ∧ ([0] : List Nat).length ≠ 0 := ⟨rfl, by decide⟩

/-- Claim C5 (amended): every successful Create with declared totalSize S
preallocates the temporary file to exactly S + 1 zero bytes (the code
seeks to position S and writes one zero byte, views.py lines 157-159). -/
theorem c5_prealloc_size (env : PyEnv) (cfg : TusConfig) (st0 st : TusState)
    (req : PostRequest) (fid : String)
    (h : tus_post env cfg st0 req fid false = (st, TusResult.created fid)) :
    st.tempFile = some (List.replicate (req.uploadLength.getD 0 + 1) 0)
    ∧ (st.tempFile.getD []).length = req.uploadLength.getD 0 + 1 := by
  unfold tus_post at h
  rcases hm : postMetadata env req with _ | md
  · rw [hm] at h
    simp at h
  · rw [hm] at h
    simp only [] at h
    split at h
    · simp at h
    · injection h with h1 h2
      subst h1
      exact ⟨rfl, by simp⟩

theorem c5_prealloc_size_witness :
    tus_post envNone cfgSample (initState [] []) ⟨true, none, none, some 3⟩
        "res2" false
      = (⟨"res2", ⟨some "None", some 3, some 0, some []⟩, some [0, 0, 0, 0],
          [], [], []⟩, TusResult.created "res2")
    ∧ ((⟨"res2", ⟨some "None", some 3, some 0, some []⟩, some [0, 0, 0, 0],
          [], [], []⟩ : TusState).tempFile = some (List.replicate (3 + 1) 0)
      ∧ (((⟨"res2", ⟨some "None", some 3, some 0, some []⟩, some [0, 0, 0, 0],
          [], [], []⟩ : TusState).tempFile.getD []).length = 3 + 1)) :=
  ⟨rfl,
   by
    have := c5_prealloc_size envNone cfgSample (initState [] [])
      (⟨"res2", ⟨some "None", some 3, some 0, some []⟩, some [0, 0, 0, 0],
        [], [], []⟩) ⟨true, none, none, some 3⟩ "res2" rfl
    exact this⟩

/-- Claim C8 (counterexample): an Append whose post-increment offset (15)
exceeds the declared totalSize (10) is accepted and returns the new
offset — no Conflict is raised. -/
theorem c8_counterexample :
    st1Sample.cache.file_size = some 10
    ∧ (tus_patch cfgSample st1Sample
        ⟨some 0, some 15, [1, 1, 1, 1, 1, 1, 1, 1, 1, 1, 1, 1, 1, 1, 1]⟩ "t").2
      = TusResult.patched 15
    ∧ TusResult.patched 15 ≠ TusResult.conflict
    ∧ (10 : Nat) < 15 := ⟨rfl, rfl, by decide, by decide⟩

/-- Claim C8 (amended): an Append with a matching claimed offset whose
chunk would push the offset past totalSize is not rejected: the bytes are
written to the temporary file, the stored offset is incremented past
totalSize, the new offset is returned, and no completion occurs (the
events are unchanged). -/
theorem c8_overshoot_accepted (cfg : TusConfig) (st : TusState)
    (req : PatchRequest) (tok fn : String) (N k : Nat) (md : PyDict) (c : List Nat)
    (hc : st.cache = ⟨some fn, some N, some k, some md⟩)
    (ht : st.tempFile = some c)
    (hfo : req.uploadOffset.getD 0 = k)
    (hcl : req.contentLength = some req.body.length)
    (hover : N < k + req.body.length) :
    tus_patch cfg st req tok =
      ({ st with
          tempFile := some (writeAt c k req.body),
          cache := ⟨some fn, some N, some (k + req.body.length), some md⟩ },
       TusResult.patched (k + req.body.length)) := by
  have hN : N ≠ k + req.contentLength.getD 102400 := by
    rw [hcl]
    simp only [Option.getD_some]
    omega
  have hp := patch_more cfg st req tok fn N k md c hc ht hfo hN
  rw [hcl] at hp
  simp only [Option.getD_some] at hp
  exact hp

theorem c8_overshoot_accepted_witness :
    st1Sample.cache = ⟨some "None", some 10, some 0, some []⟩
    ∧ st1Sample.tempFile = some [0, 0, 0, 0, 0, 0, 0, 0, 0, 0, 0]
    ∧ (10 : Nat) < 0 + 15
    ∧ tus_patch cfgSample st1Sample
        ⟨some 0, some 15, [1, 1, 1, 1, 1, 1, 1, 1, 1, 1, 1, 1, 1, 1, 1]⟩ "t"
      = ({ st1Sample with
            tempFile := some (writeAt [0, 0, 0, 0, 0, 0, 0, 0, 0, 0, 0] 0
              [1, 1, 1, 1, 1, 1, 1, 1, 1, 1, 1, 1, 1, 1, 1]),
            cache := ⟨some "None", some 10, some (0 + 15), some []⟩ },
         TusResult.patched (0 + 15)) :=
  ⟨rfl, rfl, by decide,
   c8_overshoot_accepted cfgSample st1Sample
     ⟨some 0, some 15, [1, 1, 1, 1, 1, 1, 1, 1, 1, 1, 1, 1, 1, 1, 1]⟩ "t"
     "None" 10 0 [] [0, 0, 0, 0, 0, 0, 0, 0, 0, 0, 0] rfl rfl rfl rfl (by decide)⟩

/-- Claim C3 (counterexample): the notification does not fire precisely
when the cumulative appended bytes reach N: completion is triggered by
the Content-Length-accumulated offset (views.py lines 223, 226), so on a
session with totalSize 10 a single successful Append carrying a 3-byte
body but a declared Content-Length of 10 fires the finished notification
although only 3 bytes were ever appended. -/
theorem c3_counterexample :
    (tus_patch cfgSample st1Sample ⟨some 0, some 10, [9, 9, 9]⟩ "tk2").2
      = TusResult.patched 10
    ∧ (tus_patch cfgSample st1Sample
        ⟨some 0, some 10, [9, 9, 9]⟩ "tk2").1.events.length = 1
    ∧ ([9, 9, 9] : List Nat).length ≠ 10 := ⟨rfl, rfl, by decide⟩

/-- Claim C3 (amended): for a session created with declared totalSize N,
after any sequence of operations at most one finished notification has
ever been emitted — no second notification can ever fire; from any
still-alive state, one more Append (declaring a truthful Content-Length,
so that the code's Content-Length-accumulated offset is the cumulative
appended byte count) emits a notification exactly when its claimed offset
matches and its chunk makes the cumulative appended bytes equal N, and
that same Append moves the temporary file into the destination directory
under the fresh-token-prefixed name, deletes all cache entries, and
appends exactly the one finished event. -/
theorem c3_exactly_once (env : PyEnv) (cfg : TusConfig) (un : List String)
    (df : List (String × List Nat)) (req0 : PostRequest) (fid : String)
    (st1 : TusState) (ops : List TusOp) (req : PatchRequest) (tok : String)
    (hpost : tus_post env cfg (initState un df) req0 fid false
      = (st1, TusResult.created fid))
    (hreq : req.contentLength = some req.body.length) :
    (runOps cfg st1 ops).events.length ≤ 1
    ∧ (∀ fn k md c,
        (runOps cfg st1 ops).cache
            = ⟨some fn, some (req0.uploadLength.getD 0), some k, some md⟩ →
        (runOps cfg st1 ops).tempFile = some c →
        (((tus_patch cfg (runOps cfg st1 ops) req tok).1.events.length
            = (runOps cfg st1 ops).events.length + 1)
          ↔ (req.uploadOffset.getD 0 = k
              ∧ req0.uploadLength.getD 0 = k + req.body.length))
        ∧ (req.uploadOffset.getD 0 = k →
            req0.uploadLength.getD 0 = k + req.body.length →
            (tus_patch cfg (runOps cfg st1 ops) req tok).1.cache = emptyCache
            ∧ (tus_patch cfg (runOps cfg st1 ops) req tok).1.tempFile = none
            ∧ (tus_patch cfg (runOps cfg st1 ops) req tok).1.destFiles
                = (tok ++ "_" ++ fn, writeAt c k req.body)
                    :: (runOps cfg st1 ops).destFiles
            ∧ (tus_patch cfg (runOps cfg st1 ops) req tok).1.events
                = (runOps cfg st1 ops).events
                  ++ [⟨some md, tok ++ "_" ++ fn,
                      pathJoin cfg.TUS_UPLOAD_DIR (runOps cfg st1 ops).resourceId,
                      req0.uploadLength.getD 0, cfg.TUS_UPLOAD_URL,
                      cfg.TUS_DESTINATION_DIR⟩])) := by
  obtain ⟨fn0, md0, hc0, ht0, hev0, -, -, -⟩ :=
    post_created_shape env cfg (initState un df) req0 fid st1 rfl hpost
  have hinv : OnceInv (runOps cfg st1 ops) :=
    runOps_once cfg ops st1 (Or.inl ⟨⟨fn0, _, 0, md0, _, hc0, ht0⟩, hev0⟩)
  constructor
  · rcases hinv with ⟨-, hev⟩ | ⟨-, hev⟩
    · rw [hev]
      simp
    · exact hev
  · intro fn k md c hc ht
    have hcs : req.contentLength.getD 102400 = req.body.length := by
      rw [hreq]
      rfl
    by_cases hfo : req.uploadOffset.getD 0 = k
    · by_cases hNeq : req0.uploadLength.getD 0 = k + req.body.length
      · have hp := patch_complete cfg (runOps cfg st1 ops) req tok fn
          (req0.uploadLength.getD 0) k md c hc ht hfo (by rw [hcs]; exact hNeq)
        constructor
        · constructor
          · intro _
            exact ⟨hfo, hNeq⟩
          · intro _
            simp [hp]
        · intro _ _
          refine ⟨?_, ?_, ?_, ?_⟩ <;> simp [hp]
      · have hp := patch_more cfg (runOps cfg st1 ops) req tok fn
          (req0.uploadLength.getD 0) k md c hc ht hfo (by rw [hcs]; exact hNeq)
        constructor
        · constructor
          · intro hlen
            rw [hp] at hlen
            simp at hlen
          · rintro ⟨-, h2⟩
            exact absurd h2 hNeq
        · intro _ h2
          exact absurd h2 hNeq
    · have hp := patch_conflict cfg (runOps cfg st1 ops) req tok fn
        (req0.uploadLength.getD 0) k md c hc ht hfo
      constructor
      · constructor
        · intro hlen
          rw [hp] at hlen
          simp at hlen
        · rintro ⟨h1, -⟩
          exact absurd h1 hfo
      · intro h1 _
        exact absurd h1 hfo

theorem c3_exactly_once_witness :
    tus_post envNone cfgSample (initState [] []) ⟨true, none, none, some 4⟩
        "res3" false
      = (⟨"res3", ⟨some "None", some 4, some 0, some []⟩, some [0, 0, 0, 0, 0],
          [], [], []⟩, TusResult.created "res3")
    ∧ (some 4 : Option Nat) = some ([7, 7, 7, 7] : List Nat).length
    ∧ ((runOps cfgSample (⟨"res3", ⟨some "None", some 4, some 0, some []⟩,
          some [0, 0, 0, 0, 0], [], [], []⟩ : TusState) []).events.length ≤ 1) :=
  ⟨rfl, rfl,
   (c3_exactly_once envNone cfgSample [] [] ⟨true, none, none, some 4⟩ "res3"
     (⟨"res3", ⟨some "None", some 4, some 0, some []⟩, some [0, 0, 0, 0, 0],
       [], [], []⟩) [] ⟨some 0, some 4, [7, 7, 7, 7]⟩ "tk" rfl rfl).1⟩

/-- Claim C6 (counterexample): the invariant `offset ≤ totalSize` fails on
a reachable state: from a session created with totalSize 10, a single
accepted Append with Content-Length 15 leaves a live session record with
stored offset 15. -/
theorem c6_counterexample :
    (runOps cfgSample st1Sample
        [TusOp.patchOp ⟨some 0, some 15, [1, 1, 1, 1, 1, 1, 1, 1, 1, 1, 1, 1, 1, 1, 1]⟩
          "t"]).cache
      = ⟨some "None", some 10, some 15, some []⟩
    ∧ ¬(15 ≤ 10) := ⟨rfl, by decide⟩

/-- Claim C6 (amended): offsets are naturals, so `0 ≤ offset` always; and
for runs in which every Append's claimed offset plus declared
Content-Length is at most totalSize, every reachable stored offset is at
most totalSize.  A session that reaches `offset = totalSize` is deleted
by that same Append, and from any state whose cache entries are gone
every further operation leaves the state — file and offset included —
unchanged. -/
theorem c6_offset_invariant (env : PyEnv) (cfg : TusConfig) (un : List String)
    (df : List (String × List Nat)) (req0 : PostRequest) (fid : String)
    (st1 : TusState) (ops : List TusOp)
    (hpost : tus_post env cfg (initState un df) req0 fid false
      = (st1, TusResult.created fid))
    (hb : ∀ req tok, TusOp.patchOp req tok ∈ ops →
      req.uploadOffset.getD 0 + req.contentLength.getD 102400
        ≤ req0.uploadLength.getD 0) :
    (∀ k, (runOps cfg st1 ops).cache.offset = some k →
      k ≤ req0.uploadLength.getD 0)
    ∧ (∀ fn k md c req tok,
        (runOps cfg st1 ops).cache
            = ⟨some fn, some (req0.uploadLength.getD 0), some k, some md⟩ →
        (runOps cfg st1 ops).tempFile = some c →
        req.uploadOffset.getD 0 = k →
        req0.uploadLength.getD 0 = k + req.contentLength.getD 102400 →
        (tus_patch cfg (runOps cfg st1 ops) req tok).1.cache = emptyCache)
    ∧ (∀ op, (runOps cfg st1 ops).cache = emptyCache →
        (stepOp cfg (runOps cfg st1 ops) op).1 = runOps cfg st1 ops) := by
  obtain ⟨fn0, md0, hc0, ht0, -, -, -, -⟩ :=
    post_created_shape env cfg (initState un df) req0 fid st1 rfl hpost
  have hinv := runOps_bound cfg (req0.uploadLength.getD 0) ops st1 hb
    (Or.inl ⟨fn0, 0, md0, _, hc0, ht0, Nat.zero_le _⟩)
  refine ⟨?_, ?_, ?_⟩
  · intro k hk
    rcases hinv with ⟨fn, k', md, c, hc, ht, hle⟩ | hc
    · rw [hc] at hk
      simp at hk
      omega
    · rw [hc] at hk
      simp [emptyCache] at hk
  · intro fn k md c req tok hc ht hfo hN
    have hp := patch_complete cfg (runOps cfg st1 ops) req tok fn
      (req0.uploadLength.getD 0) k md c hc ht hfo hN
    simp [hp]
  · intro op hc
    exact stepOp_dead_state cfg (runOps cfg st1 ops) op hc

theorem c6_offset_invariant_witness :
    tus_post envNone cfgSample (initState [] []) ⟨true, none, none, some 10⟩
        "res1" false = (st1Sample, TusResult.created "res1")
    ∧ (∀ k, (runOps cfgSample st1Sample
        [TusOp.patchOp ⟨some 0, some 10, [2, 2, 2, 2, 2, 2, 2, 2, 2, 2]⟩ "t"]).cache.offset
          = some k → k ≤ 10) :=
  ⟨rfl,
   by
    have := c6_offset_invariant envNone cfgSample [] []
      ⟨true, none, none, some 10⟩ "res1" st1Sample
      [TusOp.patchOp ⟨some 0, some 10, [2, 2, 2, 2, 2, 2, 2, 2, 2, 2]⟩ "t"] rfl
      (by
        intro req tok h
        rw [List.mem_singleton] at h
        injection h with h1 h2
        subst h1
        decide)
    exact this.1⟩

/-- Claim C7 (counterexample): with overwrite disabled and the declared
filename present in the destination directory (but not in the upload
working directory), creation proceeds and returns Created — the code's
existence check (views.py line 136) consults `TUS_UPLOAD_DIR`, not the
destination area, so the claim as stated fails. -/
theorem c7_counterexample :
    cfgNoOverwrite.TUS_FILE_OVERWRITE = false
    ∧ (initState [] [("report.pdf", [])]).destFiles = [("report.pdf", [])]
    ∧ (tus_post sampleEnv cfgNoOverwrite (initState [] [("report.pdf", [])])
        ⟨true, none, some "filename cmVwb3J0LnBkZg==", some 10⟩ "res1" false).2
      = TusResult.created "res1"
    ∧ TusResult.created "res1" ≠ TusResult.conflict := ⟨rfl, rfl, rfl, by decide⟩

/-- Claim C7 (amended): for a Create whose decoded metadata declares a
non-empty filename, if `TUS_FILE_OVERWRITE` is disabled and that filename
already exists in the upload working directory then the operation returns
Conflict before allocating anything — no cache entry is written and no
temporary file is created (the state is returned unchanged); with
`TUS_FILE_OVERWRITE` enabled, creation proceeds normally and returns
Created. -/
theorem c7_overwrite_policy (env : PyEnv) (cfg : TusConfig) (st : TusState)
    (req : PostRequest) (fid fn : String) (md : PyDict) (io : Bool)
    (hum : postMetadata env req = some md)
    (hfn : dictGet md "filename" = some (PyVal.str fn)) (hfne : fn ≠ "") :
    (cfg.TUS_FILE_OVERWRITE = false → fn ∈ st.uploadNames →
        tus_post env cfg st req fid io = (st, TusResult.conflict))
    ∧ (cfg.TUS_FILE_OVERWRITE = true → io = false →
        (tus_post env cfg st req fid io).2 = TusResult.created fid) := by
  constructor
  · intro how hmem
    unfold tus_post
    simp only [hum, hfn]
    simp [hfne, hmem, how]
  · intro how hio
    subst hio
    unfold tus_post
    simp only [hum, hfn]
    simp [how]

theorem c7_overwrite_policy_witness :
    postMetadata sampleEnv
        ⟨true, none, some "filename cmVwb3J0LnBkZg==", some 10⟩
      = some [("filename", PyVal.str "report.pdf")]
    ∧ dictGet [("filename", PyVal.str "report.pdf")] "filename"
      = some (PyVal.str "report.pdf")
    ∧ ("report.pdf" : String) ≠ ""
    ∧ tus_post sampleEnv cfgNoOverwrite (initState ["report.pdf"] [])
        ⟨true, none, some "filename cmVwb3J0LnBkZg==", some 10⟩ "res1" false
      = (initState ["report.pdf"] [], TusResult.conflict) :=
  ⟨rfl, rfl, by decide,
   (c7_overwrite_policy sampleEnv cfgNoOverwrite (initState ["report.pdf"] [])
      ⟨true, none, some "filename cmVwb3J0LnBkZg==", some 10⟩ "res1"
      "report.pdf" [("filename", PyVal.str "report.pdf")] false rfl rfl
      (by decide)).1 rfl (by decide)⟩

/-- Claim C9 (counterexample): the single finished event of a completed
10-byte upload carries `upload_file_path = "tmp/uploads/res1"` — the
temporary file's path — while the finalized file actually lives at
`"media/tok_None"`; the event does not carry the finalized file path. -/
theorem c9_counterexample :
    (tus_patch cfgSample st1Sample
        ⟨some 0, some 10, [1, 2, 3, 4, 5, 6, 7, 8, 9, 10]⟩ "tok").1.events
      = [⟨some [], "tok_None", "tmp/uploads/res1", 10, "/media", "media"⟩]
    ∧ pathJoin cfgSample.TUS_DESTINATION_DIR "tok_None" = "media/tok_None"
    ∧ ("tmp/uploads/res1" : String) ≠ "media/tok_None" := ⟨rfl, rfl, by decide⟩

/-- Claim C9 (amended): every completing Append emits exactly one finished
event, carrying the original metadata map, the finalized (fresh-token
prefixed) filename, the declared total size, the destination directory
identifier — and the *temporary* (pre-finalization) file path
`TUS_UPLOAD_DIR/resourceId`, not the finalized path. -/
theorem c9_completion_event (cfg : TusConfig) (st : TusState)
    (req : PatchRequest) (tok fn : String) (N k : Nat) (md : PyDict) (c : List Nat)
    (hc : st.cache = ⟨some fn, some N, some k, some md⟩)
    (ht : st.tempFile = some c)
    (hfo : req.uploadOffset.getD 0 = k)
    (hN : N = k + req.contentLength.getD 102400) :
    (tus_patch cfg st req tok).1.events
      = st.events ++ [⟨some md, tok ++ "_" ++ fn,
          pathJoin cfg.TUS_UPLOAD_DIR st.resourceId, N,
          cfg.TUS_UPLOAD_URL, cfg.TUS_DESTINATION_DIR⟩] := by
  have hp := patch_complete cfg st req tok fn N k md c hc ht hfo hN
  rw [hp]

theorem c9_completion_event_witness :
    st1Sample.cache = ⟨some "None", some 10, some 0, some []⟩
    ∧ st1Sample.tempFile = some [0, 0, 0, 0, 0, 0, 0, 0, 0, 0, 0]
    ∧ (10 : Nat) = 0 + (some 10 : Option Nat).getD 102400
    ∧ (tus_patch cfgSample st1Sample
          ⟨some 0, some 10, [1, 2, 3, 4, 5, 6, 7, 8, 9, 10]⟩ "tok").1.events
      = st1Sample.events ++ [⟨some [], "tok" ++ "_" ++ "None",
          pathJoin cfgSample.TUS_UPLOAD_DIR st1Sample.resourceId, 10,
          cfgSample.TUS_UPLOAD_URL, cfgSample.TUS_DESTINATION_DIR⟩] :=
  ⟨rfl, rfl, by decide,
   c9_completion_event cfgSample st1Sample
     ⟨some 0, some 10, [1, 2, 3, 4, 5, 6, 7, 8, 9, 10]⟩ "tok" "None" 10 0 []
     [0, 0, 0, 0, 0, 0, 0, 0, 0, 0, 0] rfl rfl rfl (by decide)⟩

/-- Claim C10 (code_bug evidence): the existence probe can never report
that a file exists: for every stdlib oracle, server state and request,
`get` never returns the file-exists outcome.  The decoded filename is
`bytes` (views.py line 79) while the directory listing holds `str`, and
in Python 3 `bytes` never compares equal to `str`, so the
case-insensitive match of line 82 is always false (and a missing
`Upload-Metadata` header raises AttributeError instead of succeeding). -/
theorem c10_probe_never_reports (env : PyEnv) (st : TusState)
    (req : GetRequest) (v : PyVal) :
    (tus_get env st req).2 ≠ TusResult.fileExists v := by
  unfold tus_get
  by_cases h1 : req.tusResumable = false
  · rw [if_pos h1]
    simp
  · rw [if_neg h1]
    rcases hum : req.uploadMetadata with _ | s
    · simp [hum]
    · simp only [hum]
      rcases hp : parseGetPairs env (pySplit ',' s) [] with _ | md
      · simp [hp]
      · simp only [hp]
        have hbytes : bytesOnly md :=
          parseGetPairs_bytes env (pySplit ',' s) [] md
            (by intro p hp0; simp at hp0) hp
        rcases hg : dictGet md "filename" with _ | fn
        · simp [hg]
        · obtain ⟨b, hb⟩ := hbytes ("filename", fn) (dictGet_mem md "filename" fn hg)
          simp only [] at hb
          subst hb
          simp only [hg]
          have hcond : ¬(pyTruthy (PyVal.bytes b) = true
              ∧ pyUpper (PyVal.bytes b)
                  ∈ st.uploadNames.map (fun f => pyUpper (PyVal.str f))) := by
            rintro ⟨-, hmem⟩
            rcases List.mem_map.1 hmem with ⟨f, -, hf⟩
            simp [pyUpper] at hf
          rw [if_neg hcond]
          simp
